import Mathlib

/-!
Shallow embedding of the valuation core of the PickMe-Investor-Assistant
repository (DCF valuation, Monte Carlo simulation, sensitivity grid).

Machine floats of the Python source are modelled as exact rationals (ℚ);
Python dicts become structures; the fallible paths of
`perform_dcf_calculation` are modelled by returning `Option`: the function
returns `none` exactly when the source raises — `IndexError` when
`revenue_growth` (read only by index, positions 0..9) has fewer than 10
entries, or the pandas length-mismatch `ValueError` when any of the five
elementwise vectors (`ebitda_margin`, `tax_rate`, `da_percent_revenue`,
`capex_percent_revenue`, `nwc_percent_revenue`, each multiplied against the
10-row revenue Series) has length different from 10. Otherwise it returns
`some` of the computed result, with `List.getD i 0` standing for the Python
index access `lst[i]` (all indices used are `< 10`, so under the length guard
`getD` reads the actual entries). Division is ℚ's total field division
(`x / 0 = 0`); the one unguarded denominator, `1 + wacc` in the discount
factor, therefore differs from Python only at `wacc = -1`, where the source
would raise `ZeroDivisionError` — no theorem below evaluates that point.
-/

namespace PickMe

/-- The `terminal_assumptions` dict of `pages/2_Valuation.py` (keys `wacc`,
`terminal_growth_rate`, `current_share_price`; the valuation math reads only
the first two). -/
structure TerminalAssumptions where
  wacc : ℚ
  terminal_growth_rate : ℚ
  current_share_price : ℚ
deriving DecidableEq

instance : Inhabited TerminalAssumptions := ⟨⟨0, 0, 0⟩⟩

/-- The `forecast_assumptions` dict of `src/valuation_logic.py`. -/
structure ForecastAssumptions where
  revenue_y0 : ℚ
  revenue_growth : List ℚ
  ebitda_margin : List ℚ
  tax_rate : List ℚ
  da_percent_revenue : List ℚ
  capex_percent_revenue : List ℚ
  nwc_percent_revenue : List ℚ
  net_debt : ℚ
  shares_outstanding : ℚ
deriving DecidableEq

/-- `revenue[0] = revenue_y0 * (1 + growth[0])`;
`revenue[i] = revenue[i-1] * (1 + growth[i])`
(`src/valuation_logic.py` lines 30-32). -/
def revenueAt (f : ForecastAssumptions) : ℕ → ℚ
  | 0 => f.revenue_y0 * (1 + f.revenue_growth.getD 0 0)
  | i + 1 => revenueAt f i * (1 + f.revenue_growth.getD (i + 1) 0)

/-- `df['EBITDA'] = df['Revenue'] * ebitda_margin` (elementwise). -/
def ebitdaAt (f : ForecastAssumptions) (i : ℕ) : ℚ :=
  revenueAt f i * f.ebitda_margin.getD i 0

/-- `df['D&A'] = df['Revenue'] * da_percent_revenue` (elementwise). -/
def depreciationAt (f : ForecastAssumptions) (i : ℕ) : ℚ :=
  revenueAt f i * f.da_percent_revenue.getD i 0

/-- `df['EBIT'] = df['EBITDA'] - df['D&A']`. -/
def ebitAt (f : ForecastAssumptions) (i : ℕ) : ℚ :=
  ebitdaAt f i - depreciationAt f i

/-- `df['NOPAT'] = df['EBIT'] * (1 - tax_rate)` (elementwise). -/
def nopatAt (f : ForecastAssumptions) (i : ℕ) : ℚ :=
  ebitAt f i * (1 - f.tax_rate.getD i 0)

/-- `df['CapEx'] = df['Revenue'] * capex_percent_revenue` (elementwise). -/
def capexAt (f : ForecastAssumptions) (i : ℕ) : ℚ :=
  revenueAt f i * f.capex_percent_revenue.getD i 0

/-- `df['Change in NWC'] = df['Revenue'] * nwc_percent_revenue` (elementwise). -/
def nwcAt (f : ForecastAssumptions) (i : ℕ) : ℚ :=
  revenueAt f i * f.nwc_percent_revenue.getD i 0

/-- `df['FCF'] = df['NOPAT'] + df['D&A'] - df['CapEx'] - df['Change in NWC']`. -/
def fcfAt (f : ForecastAssumptions) (i : ℕ) : ℚ :=
  nopatAt f i + depreciationAt f i - capexAt f i - nwcAt f i

/-- `df['PV Factor'] = (1 / (1 + wacc)) ** year` for `year = i + 1 ∈ 1..10`
(`src/valuation_logic.py` line 52). -/
def pvFactorAt (t : TerminalAssumptions) (i : ℕ) : ℚ :=
  (1 / (1 + t.wacc)) ^ (i + 1)

/-- One row of the forecast DataFrame `df` (index `years = 1..10`; row `i`
of the embedding is the row for year `i + 1`). -/
structure ForecastRow where
  revenue : ℚ
  ebitda : ℚ
  d_and_a : ℚ
  ebit : ℚ
  nopat : ℚ
  capex : ℚ
  change_in_nwc : ℚ
  fcf : ℚ
  pv_factor : ℚ
  pv_of_fcf : ℚ
deriving DecidableEq

instance : Inhabited ForecastRow := ⟨⟨0, 0, 0, 0, 0, 0, 0, 0, 0, 0⟩⟩

/-- The tuple returned by `perform_dcf_calculation`:
`(df, enterprise_value, equity_value, implied_share_price, terminal_value,
pv_terminal_value)`. -/
structure DCFResult where
  df : List ForecastRow
  enterprise_value : ℚ
  equity_value : ℚ
  implied_share_price : ℚ
  terminal_value : ℚ
  pv_terminal_value : ℚ
deriving DecidableEq

instance : Inhabited DCFResult := ⟨⟨[], 0, 0, 0, 0, 0⟩⟩

/-- The source's error-free condition. `revenue_growth` is read only by
index at positions 0..9, so it raises `IndexError` iff it has fewer than 10
entries (extra entries are ignored). The other five vectors are each
converted to an `np.array` and multiplied elementwise against the 10-row
revenue Series (`valuation_logic.py` lines 36-41), which raises the pandas
length-mismatch `ValueError` iff the vector's length differs from 10. -/
def lengthsOK (f : ForecastAssumptions) : Prop :=
  10 ≤ f.revenue_growth.length ∧ f.ebitda_margin.length = 10 ∧
  f.tax_rate.length = 10 ∧ f.da_percent_revenue.length = 10 ∧
  f.capex_percent_revenue.length = 10 ∧ f.nwc_percent_revenue.length = 10

instance (f : ForecastAssumptions) : Decidable (lengthsOK f) := by
  unfold lengthsOK; infer_instance

/-- The computation body of `perform_dcf_calculation`
(`src/valuation_logic.py` lines 26-62), executed when no `IndexError`
occurs. `fcf_y10 = df['FCF'].iloc[-1]` is `fcfAt f 9`;
`df['PV Factor'].iloc[-1]` is `pvFactorAt t 9`. -/
def dcfBody (t : TerminalAssumptions) (f : ForecastAssumptions) : DCFResult :=
  let terminal_value : ℚ :=
    if t.wacc - t.terminal_growth_rate = 0 then 0
    else (fcfAt f 9 * (1 + t.terminal_growth_rate)) /
      (t.wacc - t.terminal_growth_rate)
  let rows : List ForecastRow :=
    (List.range 10).map (fun i =>
      { revenue := revenueAt f i
        ebitda := ebitdaAt f i
        d_and_a := depreciationAt f i
        ebit := ebitAt f i
        nopat := nopatAt f i
        capex := capexAt f i
        change_in_nwc := nwcAt f i
        fcf := fcfAt f i
        pv_factor := pvFactorAt t i
        pv_of_fcf := fcfAt f i * pvFactorAt t i })
  let pv_terminal_value : ℚ := terminal_value * pvFactorAt t 9
  let enterprise_value : ℚ :=
    ((List.range 10).map (fun i => fcfAt f i * pvFactorAt t i)).sum +
      pv_terminal_value
  let equity_value : ℚ := enterprise_value - f.net_debt
  let implied_share_price : ℚ :=
    if f.shares_outstanding ≠ 0 then equity_value / f.shares_outstanding else 0
  { df := rows
    enterprise_value := enterprise_value
    equity_value := equity_value
    implied_share_price := implied_share_price
    terminal_value := terminal_value
    pv_terminal_value := pv_terminal_value }

/-- `perform_dcf_calculation(terminal_assumptions, forecast_assumptions)`
(`src/valuation_logic.py` lines 21-62): `none` models the exceptions — the
`IndexError` raised when `revenue_growth` is shorter than 10, and the
pandas length-mismatch `ValueError` raised when one of the five
elementwise vectors has length different from 10. -/
def perform_dcf_calculation (t : TerminalAssumptions) (f : ForecastAssumptions) :
    Option DCFResult :=
  if lengthsOK f then some (dcfBody t f) else none

/-- The module-level `FORECAST_ASSUMPTIONS` dict of `pages/2_Valuation.py`
(lines 19-29), in exact rationals. -/
def FORECAST_ASSUMPTIONS : ForecastAssumptions where
  revenue_y0 := 1000
  revenue_growth := [1/4, 11/50, 1/5, 9/50, 3/20, 3/25, 1/10, 2/25, 3/50, 1/20]
  ebitda_margin := List.replicate 10 (3/10)
  tax_rate := List.replicate 10 (1/4)
  da_percent_revenue := List.replicate 10 (1/20)
  capex_percent_revenue := List.replicate 10 (2/25)
  nwc_percent_revenue := List.replicate 10 (3/100)
  net_debt := 500
  shares_outstanding := 100

/-- `calculate_dcf(terminal_assumptions)` of `pages/2_Valuation.py`
(lines 32-81): its body is, line for line, the body of
`perform_dcf_calculation` with the module constant `FORECAST_ASSUMPTIONS`
in place of the `forecast_assumptions` parameter; since that constant's
vectors all have length 10, no `IndexError` can occur and the function is
total. -/
def calculate_dcf (t : TerminalAssumptions) : DCFResult :=
  dcfBody t FORECAST_ASSUMPTIONS

/-! ## Monte Carlo simulation (`run_monte_carlo`, `pages/2_Valuation.py` lines 101-118)

The two `np.random.normal` draws of each trial are modelled as an input
list `draws` of pairs (the sampled `wacc` and `terminal_growth_rate`
values), so `n_simulations = draws.length`. Python-dict aliasing is made
explicit with a heap: a list of `TerminalAssumptions` indexed by address.
`sim_assumptions = terminal_assumptions.copy()` allocates a fresh cell at
the end of the heap holding the value at `baseAddr`, and each subsequent
key assignment mutates the cell at `simAddr` (never the one at
`baseAddr`). In exact-rational arithmetic `calculate_dcf` always returns a
finite rational, so the source's `np.isnan` / `np.isinf` filter never
fires and has no residue in the embedding. -/

/-- One trial's heap effect: `sim_assumptions = terminal_assumptions.copy()`
allocates a fresh cell at address `heap.length`, then the two key
assignments overwrite `wacc` and `terminal_growth_rate` in that cell. -/
def mcHeapStep (heap : List TerminalAssumptions) (baseAddr : ℕ)
    (d : ℚ × ℚ) : List TerminalAssumptions :=
  let simAddr := heap.length
  let heap1 := heap ++ [heap.getD baseAddr default]
  let heap2 := heap1.set simAddr { heap1.getD simAddr default with wacc := d.1 }
  heap2.set simAddr { heap2.getD simAddr default with terminal_growth_rate := d.2 }

/-- The `for _ in range(n_simulations)` loop of `run_monte_carlo`,
with the heap passed explicitly. -/
def mcLoop (heap : List TerminalAssumptions) (baseAddr : ℕ)
    (draws : List (ℚ × ℚ)) (acc : List ℚ) :
    List ℚ × List TerminalAssumptions :=
  match draws with
  | [] => (acc, heap)
  | d :: rest =>
      let heap3 := mcHeapStep heap baseAddr d
      let sim := heap3.getD heap.length default
      if sim.wacc = sim.terminal_growth_rate then
        mcLoop heap3 baseAddr rest acc
      else
        mcLoop heap3 baseAddr rest
          (acc ++ [(calculate_dcf sim).implied_share_price])

/-- `run_monte_carlo(terminal_assumptions, n_simulations)`: returns the
collected `share_prices` list together with the final heap; the caller's
dict lives at address 0. -/
def run_monte_carlo (t : TerminalAssumptions) (draws : List (ℚ × ℚ)) :
    List ℚ × List TerminalAssumptions :=
  mcLoop [t] 0 draws []

/-! ## Sensitivity grid (`create_sensitivity_table`, `pages/2_Valuation.py` lines 120-145) -/

/-- `np.linspace(a, b, n)`: `n` points `a + i * (b - a) / (n - 1)`. -/
def linspace (a b : ℚ) (n : ℕ) : List ℚ :=
  (List.range n).map (fun i => a + (i : ℚ) * (b - a) / ((n : ℚ) - 1))

/-- `create_sensitivity_table(terminal_assumptions)`: a 5×5 grid (rows
indexed by `wacc`, columns by `terminal_growth`); the `np.nan` marker
appended when `wacc == terminal_growth` is modelled as `none`, and every
other cell evaluates `calculate_dcf` on a copy of the base dict with the
cell's rates written in (`temp_assumptions`). -/
def create_sensitivity_table (t : TerminalAssumptions) :
    List (List (Option ℚ)) :=
  let wacc_range := linspace (t.wacc - 2/100) (t.wacc + 2/100) 5
  let terminal_growth_range :=
    linspace (t.terminal_growth_rate - 1/100) (t.terminal_growth_rate + 1/100) 5
  wacc_range.map (fun w =>
    terminal_growth_range.map (fun g =>
      if w = g then none
      else
        some ((calculate_dcf
          { t with wacc := w, terminal_growth_rate := g }).implied_share_price)))

/-- A twelve-period assumption set: every per-period vector has 12 entries. -/
def f12 : ForecastAssumptions where
  revenue_y0 := 1000
  revenue_growth := List.replicate 12 (1/10)
  ebitda_margin := List.replicate 12 (3/10)
  tax_rate := List.replicate 12 (1/4)
  da_percent_revenue := List.replicate 12 (1/20)
  capex_percent_revenue := List.replicate 12 (2/25)
  nwc_percent_revenue := List.replicate 12 (3/100)
  net_debt := 0
  shares_outstanding := 100

/-! ## Helper lemmas -/

/-- Reading index `i < n` of a mapped range list. -/
theorem getD_map_range {α : Type} (g : ℕ → α) (n i : ℕ) (h : i < n) (d : α) :
    ((List.range n).map g).getD i d = g i := by
  rw [List.getD_eq_getElem?_getD, List.getElem?_map, List.getElem?_range h]
  rfl

theorem perform_eq_some (t : TerminalAssumptions) (f : ForecastAssumptions)
    (hlen : lengthsOK f) : perform_dcf_calculation t f = some (dcfBody t f) := by
  simp [perform_dcf_calculation, hlen]

/-- Row `i` of the schedule produced by `dcfBody`. -/
theorem dcfBody_df_getD (t : TerminalAssumptions) (f : ForecastAssumptions)
    (i : ℕ) (hi : i < 10) :
    (dcfBody t f).df.getD i default =
      { revenue := revenueAt f i, ebitda := ebitdaAt f i,
        d_and_a := depreciationAt f i, ebit := ebitAt f i,
        nopat := nopatAt f i, capex := capexAt f i,
        change_in_nwc := nwcAt f i, fcf := fcfAt f i,
        pv_factor := pvFactorAt t i,
        pv_of_fcf := fcfAt f i * pvFactorAt t i } := by
  show ((List.range 10).map (fun i =>
    ({ revenue := revenueAt f i, ebitda := ebitdaAt f i,
       d_and_a := depreciationAt f i, ebit := ebitAt f i,
       nopat := nopatAt f i, capex := capexAt f i,
       change_in_nwc := nwcAt f i, fcf := fcfAt f i,
       pv_factor := pvFactorAt t i,
       pv_of_fcf := fcfAt f i * pvFactorAt t i } : ForecastRow))).getD
      i default = _
  exact getD_map_range _ 10 i hi _

/-! ## Claim C1 -/

/-- Claim C1, counterexample: with discount rate `0.02` strictly below the
terminal growth rate `0.03` (so `r - g < 0`), the valuation does not compute
a terminal value of `0`: the `== 0` guard does not fire and the Gordon
formula yields a nonzero (negative) value. -/
theorem terminal_value_nonzero_on_inverted_spread :
    (perform_dcf_calculation ⟨1/50, 3/100, 150⟩ FORECAST_ASSUMPTIONS).map
      DCFResult.terminal_value ≠ some 0 := by
  rw [perform_eq_some _ _ (by decide)]
  simp only [Option.map_some', ne_eq, Option.some.injEq]
  norm_num [dcfBody, fcfAt, nopatAt, ebitAt, ebitdaAt, depreciationAt,
    capexAt, nwcAt, revenueAt, FORECAST_ASSUMPTIONS]

/-- Claim C1, amended: the valuation never raises for any spread sign; when
`r = g` exactly the terminal value is `0`, but when `r ≠ g` (including the
inverted case `r < g`) the Gordon-growth formula is applied, so a strictly
inverted spread yields a nonzero terminal value rather than the degenerate
`0`. -/
theorem terminal_value_spread_policy (t : TerminalAssumptions)
    (f : ForecastAssumptions) (hlen : lengthsOK f) :
    ∃ res, perform_dcf_calculation t f = some res ∧
      (t.wacc = t.terminal_growth_rate → res.terminal_value = 0) ∧
      (t.wacc ≠ t.terminal_growth_rate →
        res.terminal_value =
          fcfAt f 9 * (1 + t.terminal_growth_rate) /
            (t.wacc - t.terminal_growth_rate)) := by
  refine ⟨dcfBody t f, perform_eq_some t f hlen, ?_, ?_⟩
  · intro h
    simp [dcfBody, sub_eq_zero, h]
  · intro h
    simp [dcfBody, sub_eq_zero, h]

/-- Concrete check of `terminal_value_spread_policy` at `r = g = 0.09`. -/
theorem terminal_value_spread_policy_check :
    ∃ res, perform_dcf_calculation ⟨9/100, 9/100, 150⟩ FORECAST_ASSUMPTIONS =
      some res ∧ res.terminal_value = 0 := by
  obtain ⟨res, h1, h2, -⟩ :=
    terminal_value_spread_policy ⟨9/100, 9/100, 150⟩ FORECAST_ASSUMPTIONS
      (by decide)
  exact ⟨res, h1, h2 rfl⟩

/-! ## Claim C8 -/

/-- Claim C8: equity value is enterprise value minus net debt, and the
implied share price is equity value over shares outstanding when the share
count is nonzero, and exactly `0` when the share count is zero — a defined
result in both cases, never an exception. -/
theorem equity_and_share_price_policy (t : TerminalAssumptions)
    (f : ForecastAssumptions) (hlen : lengthsOK f) :
    ∃ res, perform_dcf_calculation t f = some res ∧
      res.equity_value = res.enterprise_value - f.net_debt ∧
      (f.shares_outstanding ≠ 0 →
        res.implied_share_price = res.equity_value / f.shares_outstanding) ∧
      (f.shares_outstanding = 0 → res.implied_share_price = 0) := by
  refine ⟨dcfBody t f, perform_eq_some t f hlen, rfl, ?_, ?_⟩
  · intro h
    simp [dcfBody, h]
  · intro h
    simp [dcfBody, h]

/-- Concrete check of `equity_and_share_price_policy`, once with the
100-share base case and once with a zero-share variant. -/
theorem equity_and_share_price_policy_check :
    (∃ res, perform_dcf_calculation ⟨9/100, 1/40, 150⟩ FORECAST_ASSUMPTIONS =
      some res ∧ res.equity_value = res.enterprise_value - 500 ∧
      res.implied_share_price = res.equity_value / 100) ∧
    (∃ res, perform_dcf_calculation ⟨9/100, 1/40, 150⟩
        { FORECAST_ASSUMPTIONS with shares_outstanding := 0 } = some res ∧
      res.implied_share_price = 0) := by
  constructor
  · obtain ⟨res, h1, h2, h3, -⟩ :=
      equity_and_share_price_policy ⟨9/100, 1/40, 150⟩ FORECAST_ASSUMPTIONS
        (by decide)
    exact ⟨res, h1, h2, h3 (by norm_num [FORECAST_ASSUMPTIONS])⟩
  · obtain ⟨res, h1, -, -, h4⟩ :=
      equity_and_share_price_policy ⟨9/100, 1/40, 150⟩
        { FORECAST_ASSUMPTIONS with shares_outstanding := 0 } (by decide)
    exact ⟨res, h1, h4 rfl⟩

/-! ## Claim C9 -/

/-- Claim C9, counterexample: with per-period vectors of length
`h = 12` the engine does not produce a 12-period schedule — it raises (the
pandas length-mismatch `ValueError` at the first elementwise line, modelled
as `none`) and produces no schedule at all. The horizon is hard-coded to
10, not taken from the vectors. -/
theorem horizon_twelve_raises_no_schedule :
    f12.revenue_growth.length = 12 ∧
    perform_dcf_calculation ⟨1/10, 0, 0⟩ f12 = none := by decide

/-- Claim C9, amended: the forecast horizon is not a configurable
parameter but hard-coded to 10: vectors of any other length make the
engine raise rather than produce a schedule of that length, and on every
input the engine accepts (revenue-growth vector with at least 10 entries,
elementwise vectors with exactly 10) the schedule it produces has exactly
10 periods. -/
theorem schedule_always_ten_periods (t : TerminalAssumptions)
    (f : ForecastAssumptions) (hlen : lengthsOK f) :
    ∃ res, perform_dcf_calculation t f = some res ∧ res.df.length = 10 := by
  exact ⟨dcfBody t f, perform_eq_some t f hlen, by simp [dcfBody]⟩

/-- Concrete check of `schedule_always_ten_periods` on the page's
hard-coded (length-10) forecast assumptions. -/
theorem schedule_always_ten_periods_check :
    ∃ res, perform_dcf_calculation ⟨1/10, 0, 0⟩ FORECAST_ASSUMPTIONS =
      some res ∧ res.df.length = 10 :=
  schedule_always_ten_periods ⟨1/10, 0, 0⟩ FORECAST_ASSUMPTIONS (by decide)

/-! ## Claim C3 -/

/-- Claim C3: the projected schedule compounds revenue period over period
(`revenue[0] = revenue_y0 * (1 + growth[0])`,
`revenue[t] = revenue[t-1] * (1 + growth[t])`), and each period's line items
satisfy EBITDA = revenue·margin, D&A = revenue·da_pct,
EBIT = EBITDA − D&A, NOPAT = EBIT·(1 − tax), CapEx = revenue·capex_pct,
ΔNWC = revenue·nwc_pct, FCF = NOPAT + D&A − CapEx − ΔNWC. -/
theorem driver_schedule_identities (t : TerminalAssumptions)
    (f : ForecastAssumptions) (hlen : lengthsOK f) :
    ∃ res, perform_dcf_calculation t f = some res ∧
      (res.df.getD 0 default).revenue =
        f.revenue_y0 * (1 + f.revenue_growth.getD 0 0) ∧
      (∀ i, i + 1 < 10 →
        (res.df.getD (i + 1) default).revenue =
          (res.df.getD i default).revenue *
            (1 + f.revenue_growth.getD (i + 1) 0)) ∧
      (∀ i, i < 10 →
        (res.df.getD i default).ebitda =
          (res.df.getD i default).revenue * f.ebitda_margin.getD i 0 ∧
        (res.df.getD i default).d_and_a =
          (res.df.getD i default).revenue * f.da_percent_revenue.getD i 0 ∧
        (res.df.getD i default).ebit =
          (res.df.getD i default).ebitda - (res.df.getD i default).d_and_a ∧
        (res.df.getD i default).nopat =
          (res.df.getD i default).ebit * (1 - f.tax_rate.getD i 0) ∧
        (res.df.getD i default).capex =
          (res.df.getD i default).revenue * f.capex_percent_revenue.getD i 0 ∧
        (res.df.getD i default).change_in_nwc =
          (res.df.getD i default).revenue * f.nwc_percent_revenue.getD i 0 ∧
        (res.df.getD i default).fcf =
          (res.df.getD i default).nopat + (res.df.getD i default).d_and_a -
            (res.df.getD i default).capex -
            (res.df.getD i default).change_in_nwc) := by
  refine ⟨dcfBody t f, perform_eq_some t f hlen, ?_, ?_, ?_⟩
  · rw [dcfBody_df_getD t f 0 (by omega)]
    rfl
  · intro i hi
    rw [dcfBody_df_getD t f (i + 1) hi, dcfBody_df_getD t f i (by omega)]
    rfl
  · intro i hi
    rw [dcfBody_df_getD t f i hi]
    exact ⟨rfl, rfl, rfl, rfl, rfl, rfl, rfl⟩

/-- Concrete check of `driver_schedule_identities` on the page's
hard-coded forecast assumptions. -/
theorem driver_schedule_identities_check :
    ∃ res, perform_dcf_calculation ⟨9/100, 1/40, 150⟩ FORECAST_ASSUMPTIONS =
      some res ∧
      (res.df.getD 0 default).revenue = 1000 * (1 + (1 : ℚ)/4) := by
  obtain ⟨res, h1, h2, -, -⟩ :=
    driver_schedule_identities ⟨9/100, 1/40, 150⟩ FORECAST_ASSUMPTIONS
      (by decide)
  exact ⟨res, h1, by rw [h2]; norm_num [FORECAST_ASSUMPTIONS]⟩

/-! ## Claim C2 -/

/-- Claim C2: the per-period discount factor for period `t = i + 1` is
`1 / (1 + r) ^ t` (end-of-period convention), the terminal value is
discounted by the last period's factor `1 / (1 + r) ^ 10`, and enterprise
value equals the sum of the discounted explicit-period free cash flows
plus the discounted terminal value — exactly, in rational arithmetic. -/
theorem discounting_identity (t : TerminalAssumptions)
    (f : ForecastAssumptions) (hlen : lengthsOK f) :
    ∃ res, perform_dcf_calculation t f = some res ∧
      (∀ i, i < 10 →
        (res.df.getD i default).pv_factor = 1 / (1 + t.wacc) ^ (i + 1)) ∧
      res.pv_terminal_value = res.terminal_value * (1 / (1 + t.wacc) ^ 10) ∧
      res.enterprise_value =
        (∑ i in Finset.range 10,
          (res.df.getD i default).fcf * (1 / (1 + t.wacc) ^ (i + 1))) +
          res.pv_terminal_value := by
  have hfac : ∀ i : ℕ, pvFactorAt t i = 1 / (1 + t.wacc) ^ (i + 1) := by
    intro i
    rw [pvFactorAt, div_pow, one_pow]
  refine ⟨dcfBody t f, perform_eq_some t f hlen, ?_, ?_, ?_⟩
  · intro i hi
    rw [dcfBody_df_getD t f i hi]
    exact hfac i
  · show (dcfBody t f).terminal_value * pvFactorAt t 9 = _
    rw [hfac 9]
  · have hsum : ∀ i ∈ Finset.range 10,
        ((dcfBody t f).df.getD i default).fcf * (1 / (1 + t.wacc) ^ (i + 1)) =
          fcfAt f i * pvFactorAt t i := by
      intro i hi
      rw [dcfBody_df_getD t f i (Finset.mem_range.mp hi), hfac i]
    rw [Finset.sum_congr rfl hsum]
    show ((List.range 10).map (fun i => fcfAt f i * pvFactorAt t i)).sum +
      (dcfBody t f).pv_terminal_value = _
    have hlist : ((List.range 10).map
        (fun i => fcfAt f i * pvFactorAt t i)).sum =
        ∑ i in Finset.range 10, fcfAt f i * pvFactorAt t i := by
      simp [Finset.sum_range_succ, List.range_succ]
      ring
    rw [hlist]

/-- Concrete check of `discounting_identity` at `r = 0.09`, `g = 0.025`:
the first-period discount factor is `100 / 109`. -/
theorem discounting_identity_check :
    ∃ res, perform_dcf_calculation ⟨9/100, 1/40, 150⟩ FORECAST_ASSUMPTIONS =
      some res ∧ (res.df.getD 0 default).pv_factor = 100 / 109 := by
  obtain ⟨res, h1, h2, -, -⟩ :=
    discounting_identity ⟨9/100, 1/40, 150⟩ FORECAST_ASSUMPTIONS (by decide)
  refine ⟨res, h1, ?_⟩
  rw [h2 0 (by omega)]
  norm_num

/-! ## Monte Carlo heap lemmas -/

theorem mcHeapStep_length (heap : List TerminalAssumptions) (baseAddr : ℕ)
    (d : ℚ × ℚ) : (mcHeapStep heap baseAddr d).length = heap.length + 1 := by
  simp [mcHeapStep]

/-- A trial's mutations never touch a pre-existing heap cell. -/
theorem mcHeapStep_getElem_lt (heap : List TerminalAssumptions)
    (baseAddr : ℕ) (d : ℚ × ℚ) (j : ℕ) (hj : j < heap.length) :
    (mcHeapStep heap baseAddr d)[j]? = heap[j]? := by
  unfold mcHeapStep
  rw [List.getElem?_set_ne (by omega), List.getElem?_set_ne (by omega),
    List.getElem?_append]
  simp [hj]

/-- After the two assignments, the fresh cell holds the base value with
both rates overwritten. -/
theorem mcHeapStep_getD_sim (heap : List TerminalAssumptions)
    (baseAddr : ℕ) (d : ℚ × ℚ) :
    (mcHeapStep heap baseAddr d).getD heap.length default =
      { heap.getD baseAddr default with
        wacc := d.1, terminal_growth_rate := d.2 } := by
  unfold mcHeapStep
  rw [List.getD_eq_getElem?_getD, List.getElem?_set_self (by simp),
    Option.getD_some, List.getD_eq_getElem?_getD,
    List.getElem?_set_self (by simp), Option.getD_some,
    List.getD_eq_getElem?_getD, List.getElem?_concat_length, Option.getD_some]

/-- Every pre-existing heap cell survives the whole loop unchanged. -/
theorem mcLoop_heap_preserved (baseAddr j : ℕ) :
    ∀ (draws : List (ℚ × ℚ)) (heap : List TerminalAssumptions)
      (acc : List ℚ), j < heap.length →
      ((mcLoop heap baseAddr draws acc).2)[j]? = heap[j]? := by
  intro draws
  induction draws with
  | nil => intro heap acc hj; rfl
  | cons d rest ih =>
      intro heap acc hj
      have hj3 : j < (mcHeapStep heap baseAddr d).length := by
        rw [mcHeapStep_length]; omega
      simp only [mcLoop]
      split
      · rw [ih _ _ hj3, mcHeapStep_getElem_lt heap baseAddr d j hj]
      · rw [ih _ _ hj3, mcHeapStep_getElem_lt heap baseAddr d j hj]

/-- The prices collected by the loop: one per draw whose two perturbed
rates differ, each evaluated on a copy of the base cell with the drawn
rates written in. -/
theorem mcLoop_prices (baseAddr : ℕ) :
    ∀ (draws : List (ℚ × ℚ)) (heap : List TerminalAssumptions)
      (acc : List ℚ), baseAddr < heap.length →
      (mcLoop heap baseAddr draws acc).1 =
        acc ++ draws.filterMap (fun d =>
          if d.1 = d.2 then none
          else some ((calculate_dcf { heap.getD baseAddr default with
            wacc := d.1,
            terminal_growth_rate := d.2 }).implied_share_price)) := by
  intro draws
  induction draws with
  | nil => intro heap acc h; simp [mcLoop]
  | cons d rest ih =>
      intro heap acc h
      have h3 : baseAddr < (mcHeapStep heap baseAddr d).length := by
        rw [mcHeapStep_length]; omega
      have hbase3 : (mcHeapStep heap baseAddr d).getD baseAddr default =
          heap.getD baseAddr default := by
        rw [List.getD_eq_getElem?_getD,
          mcHeapStep_getElem_lt heap baseAddr d baseAddr h,
          List.getD_eq_getElem?_getD]
      simp only [mcLoop, mcHeapStep_getD_sim]
      by_cases hd : d.1 = d.2
      · rw [if_pos hd, ih _ _ h3]
        simp only [hbase3]
        simp [List.filterMap_cons, hd]
      · rw [if_neg hd, ih _ _ h3]
        simp only [hbase3]
        simp [List.filterMap_cons, hd]

/-! ## Claim C10 -/

/-- Claim C10: `run_monte_carlo` leaves its `terminal_assumptions`
argument unchanged — after the loop, the caller's dict (heap address 0)
still holds exactly the original value, because every trial mutates a
fresh `.copy()` cell, never the original. -/
theorem monte_carlo_preserves_caller_dict (t : TerminalAssumptions)
    (draws : List (ℚ × ℚ)) :
    ((run_monte_carlo t draws).2).getD 0 default = t := by
  rw [run_monte_carlo, List.getD_eq_getElem?_getD,
    mcLoop_heap_preserved 0 0 draws [t] [] (by simp)]
  rfl

/-! ## Claim C4 -/

/-- Claim C4, counterexample: a trial whose perturbed rates satisfy
`r' < g'` strictly (here `r' = 0.02 < g' = 0.03`) is not skipped: the
simulation collects its implied price, so the result has length 1, not 0.
Only exact equality `r' == g'` is skipped by the code. -/
theorem monte_carlo_counts_inverted_trial :
    (1 : ℚ)/50 < 3/100 ∧
    (run_monte_carlo ⟨9/100, 1/40, 150⟩ [(1/50, 3/100)]).1.length = 1 := by
  refine ⟨by norm_num, ?_⟩
  rw [run_monte_carlo, mcLoop_prices 0 [(1/50, 3/100)]
    [⟨9/100, 1/40, 150⟩] [] (by simp)]
  norm_num [List.filterMap_cons]

/-- Claim C4, amended: the simulation returns one implied price per trial
whose two perturbed rates are not exactly equal (`r' == g'` is the only
skip; an inverted pair `r' < g'` is evaluated and collected — in exact
rational arithmetic no NaN or infinite price can arise), the result length
is at most the trial count, and an all-skipped run yields the empty
sequence. -/
theorem monte_carlo_trial_filter (t : TerminalAssumptions)
    (draws : List (ℚ × ℚ)) :
    (run_monte_carlo t draws).1 =
      draws.filterMap (fun d =>
        if d.1 = d.2 then none
        else some ((calculate_dcf { t with
          wacc := d.1,
          terminal_growth_rate := d.2 }).implied_share_price)) ∧
    (run_monte_carlo t draws).1.length ≤ draws.length := by
  have h := mcLoop_prices 0 draws [t] [] (by simp)
  simp only [List.getD_cons_zero, List.nil_append] at h
  rw [run_monte_carlo, h]
  exact ⟨rfl, List.length_filterMap_le _ _⟩

/-! ## Sensitivity grid lemmas -/

/-- The five evenly spaced grid abscissae, written out. -/
theorem linspace_five (a b : ℚ) :
    linspace a b 5 =
      [a, a + (b - a) / 4, a + (b - a) / 2, a + 3 * (b - a) / 4, b] := by
  simp only [linspace, List.range_succ, List.range_zero, List.map_append,
    List.map_cons, List.map_nil, List.nil_append, List.cons_append,
    List.append_nil]
  norm_num
  all_goals ring

/-- `create_sensitivity_table`, with both `linspace` ranges written out. -/
theorem sensitivity_table_eq (t : TerminalAssumptions) :
    create_sensitivity_table t =
      ([t.wacc - 2/100, t.wacc - 1/100, t.wacc, t.wacc + 1/100,
        t.wacc + 2/100]).map (fun w =>
        ([t.terminal_growth_rate - 1/100, t.terminal_growth_rate - 1/200,
          t.terminal_growth_rate, t.terminal_growth_rate + 1/200,
          t.terminal_growth_rate + 1/100]).map (fun g =>
          if w = g then none
          else some ((calculate_dcf { t with
            wacc := w,
            terminal_growth_rate := g }).implied_share_price))) := by
  have hw : linspace (t.wacc - 2/100) (t.wacc + 2/100) 5 =
      [t.wacc - 2/100, t.wacc - 1/100, t.wacc, t.wacc + 1/100,
       t.wacc + 2/100] := by
    rw [linspace_five]
    norm_num
    constructor <;> ring
  have hg : linspace (t.terminal_growth_rate - 1/100)
      (t.terminal_growth_rate + 1/100) 5 =
      [t.terminal_growth_rate - 1/100, t.terminal_growth_rate - 1/200,
       t.terminal_growth_rate, t.terminal_growth_rate + 1/200,
       t.terminal_growth_rate + 1/100] := by
    rw [linspace_five]
    norm_num
    constructor <;> ring
  rw [create_sensitivity_table, hw, hg]

/-! ## Claim C5 -/

/-- Claim C5, counterexample: in the grid built around base
`(r, g) = (0.03, 0.025)`, the cell at row 0, column 4 has discount rate
`0.01` strictly below its growth rate `0.035`, yet it holds a numeric
implied share price (`isSome`), not the undefined marker: the code marks
only cells with `wacc == terminal_growth` exactly. -/
theorem sensitivity_inverted_cell_is_numeric :
    (linspace (3/100 - 2/100) (3/100 + 2/100) 5).getD 0 0 = 1/100 ∧
    (linspace (1/40 - 1/100) (1/40 + 1/100) 5).getD 4 0 = 7/200 ∧
    (1 : ℚ)/100 < 7/200 ∧
    (((create_sensitivity_table ⟨3/100, 1/40, 150⟩).getD 0 []).getD 4
      none).isSome = true := by
  refine ⟨by rw [linspace_five]; norm_num, by rw [linspace_five]; norm_num,
    by norm_num, ?_⟩
  rw [sensitivity_table_eq]
  norm_num

/-- Claim C5, amended: the grid has 5 evenly spaced discount rates
spanning `[r − 0.02, r + 0.02]` and 5 evenly spaced growth rates spanning
`[g − 0.01, g + 0.01]`; a cell holds the undefined marker exactly when its
discount rate equals its growth rate, and every other cell — including
those with discount rate strictly below growth rate — holds the
valuator's implied share price for that pair. -/
theorem sensitivity_grid_characterization (t : TerminalAssumptions) :
    create_sensitivity_table t =
      ([t.wacc - 2/100, t.wacc - 1/100, t.wacc, t.wacc + 1/100,
        t.wacc + 2/100]).map (fun w =>
        ([t.terminal_growth_rate - 1/100, t.terminal_growth_rate - 1/200,
          t.terminal_growth_rate, t.terminal_growth_rate + 1/200,
          t.terminal_growth_rate + 1/100]).map (fun g =>
          if w = g then none
          else some ((calculate_dcf { t with
            wacc := w,
            terminal_growth_rate := g }).implied_share_price))) :=
  sensitivity_table_eq t

/-! ## Claim C7 -/

/-- Claim C7: when the base rates differ, the center cell (third row,
third column) of the sensitivity grid equals the implied share price of
the valuator called directly with the base assumptions. -/
theorem sensitivity_center_cell_matches_direct (t : TerminalAssumptions)
    (h : t.wacc ≠ t.terminal_growth_rate) :
    ((create_sensitivity_table t).getD 2 []).getD 2 none =
      some ((calculate_dcf t).implied_share_price) := by
  rw [sensitivity_table_eq]
  simp only [List.map_cons, List.getD_cons_zero, List.getD_cons_succ]
  rw [if_neg h]

/-- Concrete check of `sensitivity_center_cell_matches_direct` at the
base pair `(0.09, 0.025)`. -/
theorem sensitivity_center_cell_matches_direct_check :
    ((create_sensitivity_table ⟨9/100, 1/40, 150⟩).getD 2 []).getD 2 none =
      some ((calculate_dcf ⟨9/100, 1/40, 150⟩).implied_share_price) :=
  sensitivity_center_cell_matches_direct ⟨9/100, 1/40, 150⟩ (by norm_num)

end PickMe
